import Mathlib

/-!
Shallow embedding of `src/scripts/option_selector.py` (Term-Sheet-Generator).

The Python module classifies a loosely-typed form-data mapping into one of
nine term-sheet options (doubled by a binding / non-binding prefix), using
five normalization steps followed by sequential set-intersection filtering,
and separately validates the raw mapping.

Python values appearing in the form-data mapping are modelled by `Value`
(strings, numbers, booleans, `None`); numbers are modelled as rationals,
which is adequate here because the classifier only compares the coerced
deposit amount with zero.  Python's `str.lower` / `str.strip` are modelled
for ASCII input (`pyLower`, `pyStrip`), and the `in` substring operator by
an executable containment test (`strContains`).
-/

namespace TermSheet

/-- A Python value stored in the form-data dictionary. -/
inductive Value where
  | vStr : String → Value
  | vNum : Rat → Value
  | vBool : Bool → Value
  | vNone : Value
deriving DecidableEq

/-- Python `str(...)` on a `Value`.  Numeric rendering is abstracted (the
classifier only ever tests alphabetic substrings of the result, which no
digit string contains). -/
def pyStr : Value → String
  | .vStr s => s
  | .vNum q => if q.den = 1 then toString q.num else toString q.num ++ "/" ++ toString q.den
  | .vBool true => "True"
  | .vBool false => "False"
  | .vNone => "None"

/-- Python truthiness of a `Value` (`if x:`). -/
def pyTruthy : Value → Bool
  | .vStr s => s ≠ ""
  | .vNum q => q ≠ 0
  | .vBool b => b
  | .vNone => false

/-- ASCII lower-casing of a character, modelling Python `str.lower` on the
ASCII inputs this module handles. -/
def pyCharLower (c : Char) : Char :=
  if 65 ≤ c.toNat ∧ c.toNat ≤ 90 then Char.ofNat (c.toNat + 32) else c

/-- Python `str.lower` (ASCII model). -/
def pyLower (s : String) : String := ⟨s.data.map pyCharLower⟩

/-- The whitespace characters removed by Python `str.strip`. -/
def isPySpace (c : Char) : Bool :=
  c == ' ' || c == '\t' || c == '\n' || c == '\r' || c == '\x0b' || c == '\x0c'

/-- Python `str.strip`: drop whitespace from both ends. -/
def pyStrip (s : String) : String :=
  ⟨((s.data.dropWhile isPySpace).reverse.dropWhile isPySpace).reverse⟩

/-- `listIsPre p s` decides whether `p` is a prefix of `s`. -/
def listIsPre : List Char → List Char → Bool
  | [], _ => true
  | _ :: _, [] => false
  | a :: ps, b :: ss => a == b && listIsPre ps ss

/-- `listContains p s` decides whether `p` occurs contiguously inside `s`. -/
def listContains (p : List Char) : List Char → Bool
  | [] => p.isEmpty
  | b :: ss => listIsPre p (b :: ss) || listContains p ss

/-- Python's substring operator `pat in s`. -/
def strContains (s pat : String) : Bool := listContains pat.data s.data

/-- Python `float(...)` on a `Value`, `none` when the coercion raises.
String parsing is modelled for optionally whitespace-padded nonnegative
integer literals, the only string forms this module's data exercises;
other strings are treated as non-coercible. -/
def pyFloat : Value → Option Rat
  | .vNum q => some q
  | .vBool b => some (if b then 1 else 0)
  | .vStr s =>
      let t := (pyStrip s).data
      if t ≠ [] ∧ t.all Char.isDigit then
        some ((t.foldl (fun a c => a * 10 + (c.toNat - 48)) 0 : ℕ) : Rat)
      else none
  | .vNone => none

/-- The raw form-data mapping: one optional `Value` per recognized key
(`form_data.get` returns `none` exactly when the key is absent). -/
structure FormData where
  bindingStatus : Option Value
  dueDiligenceStructure : Option Value
  depositAmount : Option Value
  escrowRequired : Option Value
  exclusivityRequired : Option Value
  jurisdiction : Option Value
deriving DecidableEq

/-- The empty mapping `{}`. -/
def emptyForm : FormData := ⟨none, none, none, none, none, none⟩

/-- Normalization of `bindingStatus` in `determine_option`:
`str(form_data.get('bindingStatus', 'binding')).lower().strip()`, then
`'non-binding' in s or s == 'false'` selects `non-binding`. -/
def normalizeBinding (v : Option Value) : String :=
  let s := pyStrip (pyLower (pyStr (v.getD (.vStr "binding"))))
  if strContains s "non-binding" || s == "false" then "non-binding" else "binding"

/-- Normalization of `dueDiligenceStructure` in `determine_option`:
default `'unstructured'`, lower-cased and stripped, then the substring
test `'struct' in s` selects `structured`. -/
def normalizeDD (v : Option Value) : String :=
  let s := pyStrip (pyLower (pyStr (v.getD (.vStr "unstructured"))))
  if strContains s "struct" then "structured" else "unstructured"

/-- Normalization of `depositAmount` in `determine_option`:
`float(x) if x else 0`, with any coercion failure replaced by `0`. -/
def normalizeDeposit (v : Option Value) : Rat :=
  let raw := v.getD (.vNum 0)
  if pyTruthy raw then (pyFloat raw).getD 0 else 0

/-- Normalization of `escrowRequired` (default `False`): strings are tested
for membership in `['true','yes','on','1']` after lower-casing; any other
value is used for its truthiness downstream. -/
def normalizeEscrow (v : Option Value) : Bool :=
  match v.getD (.vBool false) with
  | .vStr s => ["true", "yes", "on", "1"].contains (pyLower s)
  | w => pyTruthy w

/-- Normalization of `exclusivityRequired` (default `True`), same string
handling as escrow. -/
def normalizeExclusivity (v : Option Value) : Bool :=
  match v.getD (.vBool true) with
  | .vStr s => ["true", "yes", "on", "1"].contains (pyLower s)
  | w => pyTruthy w

/-- Normalization of `jurisdiction` in `determine_option`: default
`'exclusive'`, lower-cased and stripped, then
`'non-exclusive' in s or 'non' in s` selects `non-exclusive`. -/
def normalizeJurisdiction (v : Option Value) : String :=
  let s := pyStrip (pyLower (pyStr (v.getD (.vStr "exclusive"))))
  if strContains s "non-exclusive" || strContains s "non" then "non-exclusive" else "exclusive"

/-- The starting candidate pool `set(range(1, 10))`. -/
def allOptions : Finset ℕ := {1, 2, 3, 4, 5, 6, 7, 8, 9}

/-- FILTER 1 of `_map_to_option`: due-diligence structure. -/
def ddSet (dd : String) : Finset ℕ :=
  if dd == "structured" then {1, 3} else {2, 4, 5, 6, 7, 8, 9}

/-- FILTER 2 of `_map_to_option`: deposit. -/
def depositSet (deposit : Bool) : Finset ℕ :=
  if !deposit then {1, 2, 5} else {3, 4, 6, 7, 8, 9}

/-- FILTER 3 of `_map_to_option`: escrow agent. -/
def escrowSet (escrow : Bool) : Finset ℕ :=
  if !escrow then {5, 6} else {1, 2, 3, 4, 7, 8, 9}

/-- FILTER 4 of `_map_to_option`: exclusivity. -/
def exclusivitySet (exclusivity : Bool) : Finset ℕ :=
  if !exclusivity then {7} else {1, 2, 3, 4, 5, 6, 8, 9}

/-- FILTER 5 of `_map_to_option`: jurisdiction. -/
def jurisdictionSet (j : String) : Finset ℕ :=
  if j == "non-exclusive" then {8} else {1, 2, 3, 4, 5, 6, 7, 9}

/-- Candidate pool after `candidates &= ...` for FILTER 1. -/
def stage1 (dd : String) : Finset ℕ := allOptions ∩ ddSet dd

/-- Candidate pool after FILTER 2. -/
def stage2 (dd : String) (dep : Bool) : Finset ℕ := stage1 dd ∩ depositSet dep

/-- Candidate pool after FILTER 3. -/
def stage3 (dd : String) (dep esc : Bool) : Finset ℕ := stage2 dd dep ∩ escrowSet esc

/-- Candidate pool after FILTER 4. -/
def stage4 (dd : String) (dep esc exc : Bool) : Finset ℕ :=
  stage3 dd dep esc ∩ exclusivitySet exc

/-- Final candidate pool after all five sequential filters. -/
def finalCandidates (dd : String) (dep esc exc : Bool) (j : String) : Finset ℕ :=
  stage4 dd dep esc exc ∩ jurisdictionSet j

/-- Python's `sorted(list(candidates))`.  Every candidate pool is a subset
of the initial pool {1,…,9}, so the ascending enumeration of 1..9 filtered
by membership is exactly the sorted list of the pool's elements (proved
against `Finset.sort` in `sortedCandidates_eq_sort` below). -/
def sortedCandidates (c : Finset ℕ) : List ℕ :=
  (List.range' 1 9).filter (· ∈ c)

/-- `_map_to_option`: `sorted(list(candidates))[0]` when candidates remain,
otherwise the fallback `9`.  The second component records whether the
fallback warning (`print("⚠️ Warning: ...")`) was emitted. -/
def mapToOption (dd : String) (dep esc exc : Bool) (j : String) : ℕ × Bool :=
  let sorted := sortedCandidates (finalCandidates dd dep esc exc j)
  (sorted.headD 9, sorted.isEmpty)

/-- The shared per-option description text of the `DESCRIPTIONS` table (the
`BINDING` and `NON_BINDING` sub-tables are literally identical). -/
def descriptionText : ℕ → String
  | 1 => "Structured DD, No Deposit, Escrow, Exclusivity, Exclusive JD"
  | 2 => "Unstructured DD, No Deposit, Escrow, Exclusivity, Exclusive JD"
  | 3 => "Structured DD, Deposit, Escrow, Exclusivity, Exclusive JD"
  | 4 => "Unstructured DD, Deposit, Escrow, Exclusivity, Exclusive JD"
  | 5 => "Unstructured DD, No Deposit, No Escrow, Exclusivity, Exclusive JD"
  | 6 => "Unstructured DD, Deposit, No Escrow, Exclusivity, Exclusive JD"
  | 7 => "Unstructured DD, Deposit, Escrow, No Exclusivity, Exclusive JD"
  | 8 => "Unstructured DD, Deposit, Escrow, Exclusivity, Non-Exclusive JD"
  | 9 => "STANDARD - Unstructured DD, Deposit, Escrow, Exclusivity, Exclusive JD"
  | _ => "Unknown Option"

/-- `DESCRIPTIONS.get(prefix, {}).get(option_number, "Unknown Option")`. -/
def descriptionsLookup (p : String) (n : ℕ) : String :=
  if p == "BINDING" || p == "NON_BINDING" then descriptionText n else "Unknown Option"

/-- `describe_option`: note the source tests `'binding' in binding_status.lower()`,
which is also true of `'non-binding'`. -/
def describe_option (option_number : ℕ) (binding_status : String) : String :=
  let p := if strContains (pyLower binding_status) "binding" then "BINDING" else "NON_BINDING"
  descriptionsLookup p option_number

/-- The normalized characteristics echoed in the classifier's result.
The source stores the possibly non-boolean raw escrow / exclusivity values
here; they are used only as booleans, and we store that boolean. -/
structure Characteristics where
  dd_structure : String
  has_deposit : Bool
  deposit_amount : Rat
  has_escrow : Bool
  has_exclusivity : Bool
  jurisdiction : String
deriving DecidableEq

/-- The record returned by `determine_option`. -/
structure OptionResult where
  binding_status : String
  option_number : ℕ
  template_variant : String
  description : String
  characteristics : Characteristics
deriving DecidableEq

/-- `TermSheetOptionSelector.determine_option` (the classifier entry point). -/
def determine_option (fd : FormData) : OptionResult :=
  let binding_status := normalizeBinding fd.bindingStatus
  let dd_structure := normalizeDD fd.dueDiligenceStructure
  let deposit_amount := normalizeDeposit fd.depositAmount
  let has_deposit := decide (0 < deposit_amount)
  let has_escrow := normalizeEscrow fd.escrowRequired
  let has_exclusivity := normalizeExclusivity fd.exclusivityRequired
  let jurisdiction := normalizeJurisdiction fd.jurisdiction
  let option_number := (mapToOption dd_structure has_deposit has_escrow has_exclusivity jurisdiction).1
  let prefixStr := if binding_status == "binding" then "BINDING" else "NON_BINDING"
  let template_variant := prefixStr ++ "_Option_" ++ toString option_number
  ⟨binding_status, option_number, template_variant,
    describe_option option_number binding_status,
    ⟨dd_structure, has_deposit, deposit_amount, has_escrow, has_exclusivity, jurisdiction⟩⟩

/-- One row of the `OPTIONS_REFERENCE` table. -/
structure RefRow where
  dd : String
  deposit : Bool
  escrow : Bool
  exclusivity : Bool
  jurisdiction : String
deriving DecidableEq

/-- The nine rows shared by both sub-tables of `OPTIONS_REFERENCE` (the
`BINDING` and `NON_BINDING` sub-tables are literally identical). -/
def refRow : ℕ → Option RefRow
  | 1 => some ⟨"structured", false, true, true, "exclusive"⟩
  | 2 => some ⟨"unstructured", false, true, true, "exclusive"⟩
  | 3 => some ⟨"structured", true, true, true, "exclusive"⟩
  | 4 => some ⟨"unstructured", true, true, true, "exclusive"⟩
  | 5 => some ⟨"unstructured", false, false, true, "exclusive"⟩
  | 6 => some ⟨"unstructured", true, false, true, "exclusive"⟩
  | 7 => some ⟨"unstructured", true, true, false, "exclusive"⟩
  | 8 => some ⟨"unstructured", true, true, true, "non-exclusive"⟩
  | 9 => some ⟨"unstructured", true, true, true, "exclusive"⟩
  | _ => none

/-- Feed a reference row's attribute values to the classifier as the raw
input fields (booleans for the deposit amount coerce via `float(True) = 1`,
`float(False) = 0`, exactly as in Python). -/
def formDataOfRow (r : RefRow) : FormData :=
  ⟨none, some (.vStr r.dd), some (.vBool r.deposit), some (.vBool r.escrow),
    some (.vBool r.exclusivity), some (.vStr r.jurisdiction)⟩

/-- The result record of `validate_form_data`. -/
structure ValidationResult where
  is_valid : Bool
  errors : List String
  warnings : List String
deriving DecidableEq

/-- `TermSheetOptionSelector.validate_form_data`. -/
def validate_form_data (fd : FormData) : ValidationResult :=
  let errs1 : List String :=
    if !pyTruthy (fd.bindingStatus.getD .vNone) then ["bindingStatus is required"] else []
  let errs2 : List String :=
    errs1 ++ (if !pyTruthy (fd.dueDiligenceStructure.getD .vNone) then
      ["dueDiligenceStructure is required"] else [])
  let binding := pyLower (pyStr (fd.bindingStatus.getD (.vStr "")))
  let warns1 : List String :=
    if binding ≠ "" ∧ !(["binding", "non-binding", "true", "false"].contains binding) then
      ["Unusual bindingStatus value: " ++ binding] else []
  let dd := pyLower (pyStr (fd.dueDiligenceStructure.getD (.vStr "")))
  let warns2 : List String :=
    warns1 ++ (if dd ≠ "" ∧ !strContains dd "struct" ∧
        !(["structured", "unstructured"].contains dd) then
      ["Unusual dueDiligenceStructure value: " ++ dd] else [])
  let deposit := fd.depositAmount.getD (.vNum 0)
  let errs3 : List String :=
    errs2 ++ (if pyTruthy deposit ∧ (pyFloat deposit).isNone then
      ["Invalid depositAmount: " ++ pyStr deposit] else [])
  let jd := pyLower (pyStr (fd.jurisdiction.getD (.vStr "")))
  let warns3 : List String :=
    warns2 ++ (if jd ≠ "" ∧ !(["exclusive", "non-exclusive"].contains jd) then
      ["Unusual jurisdiction value: " ++ jd] else [])
  ⟨errs3.length == 0, errs3, warns3⟩

/-! ### Helper lemmas -/

/-- `listIsPre` decides the prefix relation. -/
theorem listIsPre_iff (p s : List Char) :
    listIsPre p s = true ↔ ∃ t, s = p ++ t := by
  induction p generalizing s with
  | nil =>
    exact iff_of_true rfl ⟨s, rfl⟩
  | cons a ps ih =>
    cases s with
    | nil =>
      constructor
      · intro h; cases h
      · rintro ⟨t, h⟩; cases h
    | cons b ss =>
      rw [listIsPre]
      simp only [Bool.and_eq_true, beq_iff_eq, ih, List.cons_append]
      constructor
      · rintro ⟨rfl, t, rfl⟩
        exact ⟨t, rfl⟩
      · rintro ⟨t, h⟩
        injection h with h1 h2
        exact ⟨h1.symm, t, h2⟩

/-- `listContains` decides contiguous-substring occurrence. -/
theorem listContains_iff (p s : List Char) :
    listContains p s = true ↔ ∃ l r, s = l ++ p ++ r := by
  induction s with
  | nil =>
    rw [listContains]
    constructor
    · intro h
      exact ⟨[], [], by simp [List.isEmpty_iff.mp h]⟩
    · rintro ⟨l, r, h⟩
      rcases List.append_eq_nil.mp h.symm with ⟨h1, h2⟩
      rcases List.append_eq_nil.mp h1 with ⟨h3, h4⟩
      simp [h4, List.isEmpty_iff]
  | cons b ss ih =>
    rw [listContains]
    simp only [Bool.or_eq_true, listIsPre_iff, ih]
    constructor
    · rintro (⟨t, ht⟩ | ⟨l, r, hlr⟩)
      · exact ⟨[], t, by simpa using ht⟩
      · exact ⟨b :: l, r, by simp [hlr]⟩
    · rintro ⟨l, r, h⟩
      cases l with
      | nil => exact Or.inl ⟨r, by simpa using h⟩
      | cons c l' =>
        rw [List.cons_append, List.cons_append] at h
        injection h with h1 h2
        exact Or.inr ⟨l', r, h2⟩

/-- Python's `pat in s` holds exactly when `pat` occurs contiguously in `s`. -/
theorem strContains_iff (s pat : String) :
    strContains s pat = true ↔ ∃ l r, s.data = l ++ pat.data ++ r :=
  listContains_iff pat.data s.data

/-- The final candidate pool never leaves the initial pool {1,…,9}. -/
theorem finalCandidates_subset (dd : String) (dep esc exc : Bool) (j : String) :
    finalCandidates dd dep esc exc j ⊆ allOptions := by
  intro x hx
  simp only [finalCandidates, stage4, stage3, stage2, stage1, Finset.mem_inter] at hx
  exact hx.1.1.1.1.1

/-- For pools inside {1,…,9}, the filtered ascending enumeration used by the
embedding is literally `Finset.sort`, i.e. Python's `sorted(list(candidates))`. -/
theorem sortedCandidates_eq_sort (c : Finset ℕ) (hc : c ⊆ allOptions) :
    sortedCandidates c = c.sort (· ≤ ·) := by
  refine List.eq_of_perm_of_sorted (r := (· ≤ ·)) ?_ ?_ (Finset.sort_sorted _ c)
  · apply List.perm_of_nodup_nodup_toFinset_eq
    · exact List.Nodup.filter _ (by decide)
    · exact Finset.sort_nodup _ c
    · ext x
      simp only [sortedCandidates, List.toFinset_filter, decide_eq_true_eq,
        Finset.mem_filter, List.mem_toFinset, Finset.mem_sort, Finset.sort_toFinset]
      constructor
      · rintro ⟨_, hx⟩; exact hx
      · intro hx
        refine ⟨?_, hx⟩
        have hall := hc hx
        simp only [allOptions, Finset.mem_insert, Finset.mem_singleton] at hall
        rcases hall with rfl | rfl | rfl | rfl | rfl | rfl | rfl | rfl | rfl <;> decide
  · exact List.Pairwise.sublist (List.filter_sublist _) (by decide)

/-- The option number computed by `determine_option` is exactly the result
of `_map_to_option` on the normalized attribute tuple. -/
theorem determine_option_number (fd : FormData) :
    (determine_option fd).option_number =
      (mapToOption (normalizeDD fd.dueDiligenceStructure)
        (decide (0 < normalizeDeposit fd.depositAmount))
        (normalizeEscrow fd.escrowRequired)
        (normalizeExclusivity fd.exclusivityRequired)
        (normalizeJurisdiction fd.jurisdiction)).1 := by
  simp only [determine_option]

/-- The variant identifier is the binding-status prefix joined to the
option number. -/
theorem determine_option_variant (fd : FormData) :
    (determine_option fd).template_variant =
      (if normalizeBinding fd.bindingStatus == "binding" then "BINDING" else "NON_BINDING")
        ++ "_Option_" ++ toString (determine_option fd).option_number := by
  simp only [determine_option]

/-- `_map_to_option` always answers inside [1, 9]. -/
theorem mapToOption_bounds (dd : String) (dep esc exc : Bool) (j : String) :
    1 ≤ (mapToOption dd dep esc exc j).1 ∧ (mapToOption dd dep esc exc j).1 ≤ 9 := by
  cases hs : sortedCandidates (finalCandidates dd dep esc exc j) with
  | nil => simp [mapToOption, hs]
  | cons m t =>
    have hm : m ∈ sortedCandidates (finalCandidates dd dep esc exc j) := by
      rw [hs]; exact List.mem_cons_self m t
    have hr : m ∈ List.range' 1 9 := (List.mem_filter.mp hm).1
    rcases List.mem_range'.mp hr with ⟨i, hi, rfl⟩
    simp only [mapToOption, hs, List.headD_cons]
    omega

/-- When candidates survive all five filters, `_map_to_option` returns a
member of the final pool that is a lower bound of the final pool. -/
theorem mapToOption_min (dd : String) (dep esc exc : Bool) (j : String)
    (h : (finalCandidates dd dep esc exc j).Nonempty) :
    (mapToOption dd dep esc exc j).1 ∈ finalCandidates dd dep esc exc j ∧
      ∀ x ∈ finalCandidates dd dep esc exc j, (mapToOption dd dep esc exc j).1 ≤ x := by
  have hsort : sortedCandidates (finalCandidates dd dep esc exc j)
      = (finalCandidates dd dep esc exc j).sort (· ≤ ·) :=
    sortedCandidates_eq_sort _ (finalCandidates_subset dd dep esc exc j)
  obtain ⟨a, ha⟩ := h
  have ha' : a ∈ (finalCandidates dd dep esc exc j).sort (· ≤ ·) :=
    (Finset.mem_sort _).mpr ha
  cases hs : (finalCandidates dd dep esc exc j).sort (· ≤ ·) with
  | nil => rw [hs] at ha'; cases ha'
  | cons m t =>
    have hfst : (mapToOption dd dep esc exc j).1 = m := by
      simp [mapToOption, hsort, hs]
    have hm : m ∈ finalCandidates dd dep esc exc j := by
      rw [← Finset.mem_sort (α := ℕ) (· ≤ ·), hs]
      exact List.mem_cons_self m t
    have hsorted := Finset.sort_sorted (α := ℕ) (· ≤ ·) (finalCandidates dd dep esc exc j)
    rw [hs] at hsorted
    rw [hfst]
    refine ⟨hm, fun x hx => ?_⟩
    have hx' : x ∈ m :: t := by
      rw [← hs]; exact (Finset.mem_sort _).mpr hx
    rcases List.mem_cons.mp hx' with rfl | hxt
    · exact le_refl x
    · exact (List.sorted_cons.mp hsorted).1 x hxt

/-- `determine_option` on a form whose binding status normalizes to
`binding` prefixes the variant identifier with `BINDING`. -/
theorem variant_of_binding (fd : FormData)
    (hb : normalizeBinding fd.bindingStatus = "binding") :
    (determine_option fd).template_variant =
      "BINDING_Option_" ++ toString (determine_option fd).option_number := by
  rw [determine_option_variant, hb]
  rfl

/-- `determine_option` on a form whose binding status normalizes to
`non-binding` prefixes the variant identifier with `NON_BINDING`. -/
theorem variant_of_nonbinding (fd : FormData)
    (hb : normalizeBinding fd.bindingStatus = "non-binding") :
    (determine_option fd).template_variant =
      "NON_BINDING_Option_" ++ toString (determine_option fd).option_number := by
  rw [determine_option_variant, hb]
  rfl

/-! ### Concrete inputs used by the claims -/

/-- The standard-deal scenario from §8 of the spec and the module's own
first test case. -/
def c2Input : FormData :=
  ⟨some (.vStr "binding"), some (.vStr "unstructured"), some (.vNum 500000),
    some (.vBool true), some (.vBool true), some (.vStr "exclusive")⟩

/-- A structured due-diligence deal in a non-exclusive jurisdiction: its
filters intersect to the empty pool. -/
def c6WitnessForm : FormData :=
  ⟨none, some (.vStr "structured"), none, none, none, some (.vStr "non-exclusive")⟩

/-- A binding form with all other fields absent. -/
def c7BindingForm : FormData :=
  ⟨some (.vStr "binding"), none, none, none, none, none⟩

/-- A non-binding form with all other fields absent. -/
def c7NonBindingForm : FormData :=
  ⟨some (.vStr "non-binding"), none, none, none, none, none⟩

/-! ### Claims -/

/-- Claim C1, counterexample: feeding reference row 2 (`dd = 'unstructured'`,
no deposit, escrow, exclusivity, exclusive jurisdiction) as raw input makes
`classify` return option 1, not the row's own number 2: the `'struct'`
substring normalization reclassifies `'unstructured'` as structured. -/
theorem C1_counterexample :
    refRow 2 = some ⟨"unstructured", false, true, true, "exclusive"⟩ ∧
    (determine_option (formDataOfRow
        ⟨"unstructured", false, true, true, "exclusive"⟩)).option_number = 1 ∧
    (1 : ℕ) ≠ 2 :=
  ⟨rfl, by decide, by decide⟩

/-- Claim C1, amended: classifying each of the 9 reference attribute tuples
fed as raw input returns that tuple's own option number only for rows 1 and 3;
rows 2 and 4 return 1 and 3 (the `'struct'` substring normalization
reclassifies `'unstructured'` as structured), rows 5–8 fall through to the
empty-pool fallback 9, and row 9 returns 3. -/
theorem C1_amended_table_mapping :
    (List.range' 1 9).map (fun n => (refRow n).map
        (fun r => (determine_option (formDataOfRow r)).option_number))
      = [some 1, some 1, some 3, some 3, some 9, some 9, some 9, some 9, some 3] := by
  decide

/-- Claim C2: on the standard-deal input the code returns
`BINDING_Option_3`, not the `BINDING_Option_9` that the claim (and the
module's own test suite) expects — evaluation of the code at the failing
input. -/
theorem C2_code_evaluation :
    (determine_option c2Input).template_variant = "BINDING_Option_3" ∧
    (determine_option c2Input).template_variant ≠ "BINDING_Option_9" :=
  ⟨by decide, by decide⟩

/-- Claim C3, counterexample: with `dueDiligenceStructure` absent the
default literal `'unstructured'` itself contains `'struct'`, so the
normalization yields `'structured'`, not the `'unstructured'` the claim
assigns to absence. -/
theorem C3_counterexample :
    normalizeDD none = "structured" ∧ normalizeDD none ≠ "unstructured" :=
  ⟨by decide, by decide⟩

/-- Claim C3, amended: the normalization of `dueDiligenceStructure` maps a
present value to `'structured'` exactly when the lower-cased, stripped text
contains the substring `'struct'` (in particular the literal
`'unstructured'` maps to `'structured'`), to `'unstructured'` otherwise;
absence defaults to the literal `'unstructured'` and therefore also
normalizes to `'structured'`.  The normalization is a total function, so it
never raises. -/
theorem C3_amended_normalization (v : Value) :
    (normalizeDD (some v) = "structured" ↔
      ∃ l r, (pyStrip (pyLower (pyStr v))).data = l ++ ("struct").data ++ r) ∧
    (normalizeDD (some v) = "unstructured" ↔
      ¬∃ l r, (pyStrip (pyLower (pyStr v))).data = l ++ ("struct").data ++ r) ∧
    normalizeDD (some (Value.vStr "unstructured")) = "structured" ∧
    normalizeDD none = "structured" := by
  have hdef : normalizeDD (some v) =
      if strContains (pyStrip (pyLower (pyStr v))) "struct" then "structured"
      else "unstructured" := rfl
  have hiff := strContains_iff (pyStrip (pyLower (pyStr v))) "struct"
  refine ⟨?_, ?_, by decide, by decide⟩
  · rw [hdef]
    cases hb : strContains (pyStrip (pyLower (pyStr v))) "struct" with
    | true =>
      rw [if_pos rfl]
      exact iff_of_true rfl (hiff.mp hb)
    | false =>
      rw [if_neg (by decide)]
      exact iff_of_false (by decide) (fun hx => absurd (hiff.mpr hx) (by simp [hb]))
  · rw [hdef]
    cases hb : strContains (pyStrip (pyLower (pyStr v))) "struct" with
    | true =>
      rw [if_pos rfl]
      exact iff_of_false (by decide) (fun hn => hn (hiff.mp hb))
    | false =>
      rw [if_neg (by decide)]
      exact iff_of_true rfl (fun hx => absurd (hiff.mpr hx) (by simp [hb]))

/-- Claim C4: for every input mapping — any combination of string, numeric,
boolean or `None` values, or absent fields — the classifier returns an
option number in [1, 9].  Totality (no escaping exception) is inherent in
`determine_option` being a total function of its input. -/
theorem C4_total_in_range (fd : FormData) :
    1 ≤ (determine_option fd).option_number ∧ (determine_option fd).option_number ≤ 9 := by
  rw [determine_option_number]
  exact mapToOption_bounds _ _ _ _ _

/-- Claim C5: whenever the five sequential filters leave a non-empty
candidate pool, `_map_to_option` returns a member of the pool that is a
lower bound of the pool, i.e. its minimum; in particular, for structured
due diligence with no deposit the retained sets force that minimum to be
option 1. -/
theorem C5_min_selection (dd : String) (dep esc exc : Bool) (j : String)
    (h : (finalCandidates dd dep esc exc j).Nonempty) :
    ((mapToOption dd dep esc exc j).1 ∈ finalCandidates dd dep esc exc j ∧
      ∀ x ∈ finalCandidates dd dep esc exc j, (mapToOption dd dep esc exc j).1 ≤ x) ∧
    (dd = "structured" → dep = false → (mapToOption dd dep esc exc j).1 = 1) := by
  have hmain := mapToOption_min dd dep esc exc j h
  refine ⟨hmain, ?_⟩
  rintro rfl rfl
  have hres := hmain.1
  simp only [finalCandidates, stage4, stage3, stage2, stage1, Finset.mem_inter] at hres
  have h13 := hres.1.1.1.1.2
  have h125 := hres.1.1.1.2
  have e1 : ddSet "structured" = ({1, 3} : Finset ℕ) := rfl
  have e2 : depositSet false = ({1, 2, 5} : Finset ℕ) := rfl
  rw [e1] at h13
  rw [e2] at h125
  simp only [Finset.mem_insert, Finset.mem_singleton] at h13 h125
  omega

/-- Claim C5, witness: the structured / no-deposit / escrow / exclusivity /
exclusive tuple has final pool {1} and the classifier picks option 1. -/
theorem C5_min_selection_witness :
    (finalCandidates "structured" false true true "exclusive").Nonempty ∧
    (((mapToOption "structured" false true true "exclusive").1 ∈
        finalCandidates "structured" false true true "exclusive" ∧
      ∀ x ∈ finalCandidates "structured" false true true "exclusive",
        (mapToOption "structured" false true true "exclusive").1 ≤ x) ∧
    ("structured" = "structured" → false = false →
      (mapToOption "structured" false true true "exclusive").1 = 1)) :=
  ⟨⟨1, by decide⟩, C5_min_selection "structured" false true true "exclusive" ⟨1, by decide⟩⟩

/-- Claim C6: whenever the five filters of the normalized tuple intersect
to the empty pool, the classifier returns option 9 and the advisory warning
is emitted (the fallback is a total code path, never a failure); such empty
intersections are reachable, e.g. structured due diligence together with a
non-exclusive jurisdiction. -/
theorem C6_empty_fallback (fd : FormData)
    (h : finalCandidates (normalizeDD fd.dueDiligenceStructure)
        (decide (0 < normalizeDeposit fd.depositAmount))
        (normalizeEscrow fd.escrowRequired)
        (normalizeExclusivity fd.exclusivityRequired)
        (normalizeJurisdiction fd.jurisdiction) = ∅) :
    (determine_option fd).option_number = 9 ∧
    (mapToOption (normalizeDD fd.dueDiligenceStructure)
        (decide (0 < normalizeDeposit fd.depositAmount))
        (normalizeEscrow fd.escrowRequired)
        (normalizeExclusivity fd.exclusivityRequired)
        (normalizeJurisdiction fd.jurisdiction)).2 = true ∧
    finalCandidates "structured" true true true "non-exclusive" = ∅ := by
  have hs : sortedCandidates (finalCandidates (normalizeDD fd.dueDiligenceStructure)
      (decide (0 < normalizeDeposit fd.depositAmount))
      (normalizeEscrow fd.escrowRequired)
      (normalizeExclusivity fd.exclusivityRequired)
      (normalizeJurisdiction fd.jurisdiction)) = [] := by
    rw [h]; rfl
  refine ⟨?_, ?_, by decide⟩
  · rw [determine_option_number]
    simp [mapToOption, hs]
  · simp [mapToOption, hs]

/-- Claim C6, witness: a structured due-diligence form in a non-exclusive
jurisdiction reaches the empty pool and the fallback. -/
theorem C6_empty_fallback_witness :
    finalCandidates (normalizeDD c6WitnessForm.dueDiligenceStructure)
        (decide (0 < normalizeDeposit c6WitnessForm.depositAmount))
        (normalizeEscrow c6WitnessForm.escrowRequired)
        (normalizeExclusivity c6WitnessForm.exclusivityRequired)
        (normalizeJurisdiction c6WitnessForm.jurisdiction) = ∅ ∧
    ((determine_option c6WitnessForm).option_number = 9 ∧
      (mapToOption (normalizeDD c6WitnessForm.dueDiligenceStructure)
          (decide (0 < normalizeDeposit c6WitnessForm.depositAmount))
          (normalizeEscrow c6WitnessForm.escrowRequired)
          (normalizeExclusivity c6WitnessForm.exclusivityRequired)
          (normalizeJurisdiction c6WitnessForm.jurisdiction)).2 = true ∧
      finalCandidates "structured" true true true "non-exclusive" = ∅) :=
  ⟨by decide, C6_empty_fallback c6WitnessForm (by decide)⟩

/-- Claim C7: two input mappings that agree on everything but the binding
status, one normalizing to binding and the other to non-binding, receive
the same option number, and their variant identifiers differ only in the
`BINDING` / `NON_BINDING` prefix. -/
theorem C7_binding_independence (fd1 fd2 : FormData)
    (hdd : fd1.dueDiligenceStructure = fd2.dueDiligenceStructure)
    (hdep : fd1.depositAmount = fd2.depositAmount)
    (hesc : fd1.escrowRequired = fd2.escrowRequired)
    (hexc : fd1.exclusivityRequired = fd2.exclusivityRequired)
    (hjur : fd1.jurisdiction = fd2.jurisdiction)
    (hb1 : normalizeBinding fd1.bindingStatus = "binding")
    (hb2 : normalizeBinding fd2.bindingStatus = "non-binding") :
    (determine_option fd1).option_number = (determine_option fd2).option_number ∧
    (determine_option fd1).template_variant =
      "BINDING_Option_" ++ toString (determine_option fd1).option_number ∧
    (determine_option fd2).template_variant =
      "NON_BINDING_Option_" ++ toString (determine_option fd2).option_number := by
  refine ⟨?_, variant_of_binding fd1 hb1, variant_of_nonbinding fd2 hb2⟩
  rw [determine_option_number, determine_option_number, hdd, hdep, hesc, hexc, hjur]

/-- Claim C7, witness: flipping only the binding status between two
otherwise-empty forms. -/
theorem C7_binding_independence_witness :
    normalizeBinding c7BindingForm.bindingStatus = "binding" ∧
    normalizeBinding c7NonBindingForm.bindingStatus = "non-binding" ∧
    ((determine_option c7BindingForm).option_number =
        (determine_option c7NonBindingForm).option_number ∧
      (determine_option c7BindingForm).template_variant =
        "BINDING_Option_" ++ toString (determine_option c7BindingForm).option_number ∧
      (determine_option c7NonBindingForm).template_variant =
        "NON_BINDING_Option_" ++ toString (determine_option c7NonBindingForm).option_number) :=
  ⟨by decide, by decide,
    C7_binding_independence c7BindingForm c7NonBindingForm rfl rfl rfl rfl rfl
      (by decide) (by decide)⟩

/-- Claim C8: the classifier is deterministic — two invocations on
identical inputs yield identical output records (it is a pure function of
the form data). -/
theorem C8_deterministic (fd fd' : FormData) (h : fd = fd') :
    determine_option fd = determine_option fd' := by
  rw [h]

/-- Claim C8, witness: determinism instantiated at the empty mapping. -/
theorem C8_deterministic_witness :
    determine_option emptyForm = determine_option emptyForm :=
  C8_deterministic emptyForm emptyForm rfl

/-- Claim C9: validating the empty input mapping reports it invalid, with
error messages for both missing required fields. -/
theorem C9_empty_validation :
    (validate_form_data emptyForm).is_valid = false ∧
    "bindingStatus is required" ∈ (validate_form_data emptyForm).errors ∧
    "dueDiligenceStructure is required" ∈ (validate_form_data emptyForm).errors :=
  ⟨by decide, by decide, by decide⟩

/-- Claim C10: classifying the empty mapping reaches option 9 through the
empty-pool fallback, not through a table match: the absent due-diligence
field defaults to `'unstructured'`, which the substring test normalizes to
`'structured'` (pool {1, 3}); the deposit default 0 narrows the pool to
{1}; the escrow default `False` intersects it with {5, 6} to the empty
pool; the fallback then yields 9, and the binding default makes the variant
`BINDING_Option_9`. -/
theorem C10_empty_input_fallback :
    normalizeDD none = "structured" ∧
    normalizeDeposit none = 0 ∧
    normalizeEscrow none = false ∧
    normalizeExclusivity none = true ∧
    normalizeJurisdiction none = "exclusive" ∧
    stage1 "structured" = {1, 3} ∧
    stage2 "structured" false = {1} ∧
    stage3 "structured" false false = ∅ ∧
    finalCandidates "structured" false false true "exclusive" = ∅ ∧
    (mapToOption "structured" false false true "exclusive").2 = true ∧
    (determine_option emptyForm).option_number = 9 ∧
    (determine_option emptyForm).template_variant = "BINDING_Option_9" := by
  refine ⟨by decide, by decide, by decide, by decide, by decide, by decide,
    by decide, by decide, by decide, by decide, by decide, by decide⟩

end TermSheet
